import Mathlib

/-!
Verification development for the balls-chin generator scripts.

The repository holds two near-duplicate browser scripts:
* `src/script.js` — the asset (mask/outline) variant, whose colour sampler
  restricts the sample window to the top 40% of the requested rectangle,
  filters pixels by brightness, and brightens by +15; embedded below in
  namespace `Script`.
* `src/unnamed/part_000` — the procedural (two-ellipse) variant, whose colour
  sampler averages unconditionally and brightens by +10; embedded below in
  namespace `Part0`.

Numbers handled by the scripts (canvas coordinates, slider values, averages)
are embedded as exact rationals `ℚ`; pixel channel values are naturals.
`Math.floor` is `Int.floor`, `Math.round` (round half toward +infinity) is
Mathlib's `round`, and `Math.min`/`Math.max` over spread arrays are folds.
Canvas drawing is embedded as an explicit list of drawing commands, so that
"the bitmap is unchanged" is equality of command lists.
-/

set_option maxHeartbeats 1000000

/-- An RGB colour triple with natural-number channels (as read from the
RGBA pixel buffer, and as produced by the samplers). -/
structure RGB where
  r : ℕ
  g : ℕ
  b : ℕ
deriving DecidableEq, Repr

/-- A normalised facial landmark point as delivered by the external detector:
coordinates in [0,1] relative to the image dimensions (the scripts consume
them without validating the range, so we place no bound here). -/
structure Landmark where
  x : ℚ
  y : ℚ
deriving DecidableEq, Repr

instance : Inhabited Landmark := ⟨⟨0, 0⟩⟩

/-- A placement rectangle `{x, y, width, height}` in pixel space. -/
structure Rect where
  x : ℚ
  y : ℚ
  w : ℚ
  h : ℚ
deriving DecidableEq, Repr

/-- An image asset (`new Image()`): its readiness flag `complete`, its
`naturalWidth`, and its `width`/`height` used to size the offscreen canvas. -/
structure ImgAsset where
  complete : Bool
  naturalWidth : ℕ
  width : ℕ
  height : ℕ
deriving DecidableEq, Repr

/-- Operations performed on the offscreen canvas in `drawTintedChin`:
draw the mask, fill with the tint colour under `source-in` compositing,
then draw the outline under `source-over`. -/
inductive OffCmd where
  | drawMask
  | sourceInFill (c : RGB)
  | drawOutline
deriving DecidableEq, Repr

/-- Drawing commands applied to the main canvas.  Fixed angle arguments of
the source are baked into the constructors: `strokeArcTop cx cy r col` is
`ctx.arc(cx, cy, r, Math.PI, 0, false)` followed by `ctx.stroke()`, and the
ellipse commands use rotation 0 and the full sweep 0..2π as in the source. -/
inductive MainCmd where
  | clear
  | drawUploaded
  | drawOffscreen (offW offH : ℕ) (buf : List OffCmd) (x y w h : ℚ)
  | drawOffscreenRotated (offW offH : ℕ) (buf : List OffCmd) (cx cy angle w h : ℚ)
  | fillEllipse (cx cy rx ry : ℚ) (fill : RGB)
  | strokeEllipse (cx cy rx ry : ℚ) (stroke : RGB)
  | strokeLine (x1 y1 x2 y2 : ℚ) (stroke : RGB)
  | strokeArcTop (cx cy r : ℚ) (stroke : RGB)
deriving DecidableEq, Repr

/-- Outcome of the awaited external face-detection call inside the generate
handler: the promise rejected / `FaceMesh` threw (`threw`), it resolved with
no landmark set (`noFace`), or it resolved with one landmark set (`face`). -/
inductive DetectOutcome where
  | threw
  | noFace
  | face (lms : List Landmark)
deriving DecidableEq, Repr

/-- The mutable page state touched by the generate handler: the uploaded
image (with its pixel dimensions; the canvas is resized to match on load),
the two control-disabled flags, and the list of commands drawn so far. -/
structure AppState where
  uploadedImage : Option (ℕ × ℕ)
  generateDisabled : Bool
  downloadDisabled : Bool
  cmds : List MainCmd

/-- `Math.min(...xs)` for a spread array: a left fold of binary `min` over
the list.  JavaScript returns `+Infinity` on an empty spread; the scripts
only reach this with a nonempty landmark list, so the `[]` value (0 here)
is never relevant to any theorem below. -/
def jsMin : List ℚ → ℚ
  | [] => 0
  | a :: rest => rest.foldl min a

/-- `Math.max(...xs)`, analogously. -/
def jsMax : List ℚ → ℚ
  | [] => 0
  | a :: rest => rest.foldl max a

lemma foldl_min_le_init (l : List ℚ) (a : ℚ) : l.foldl min a ≤ a := by
  induction l generalizing a with
  | nil => simp
  | cons x xs ih => exact le_trans (ih (min a x)) (min_le_left a x)

lemma foldl_min_le_mem (l : List ℚ) (a : ℚ) : ∀ b ∈ l, l.foldl min a ≤ b := by
  induction l generalizing a with
  | nil => intro b hb; cases hb
  | cons x xs ih =>
      intro b hb
      rcases List.mem_cons.mp hb with hb | hb
      · subst hb
        exact le_trans (foldl_min_le_init xs (min a b)) (min_le_right a b)
      · exact ih (min a x) b hb

lemma foldl_min_mem (l : List ℚ) (a : ℚ) :
    l.foldl min a = a ∨ l.foldl min a ∈ l := by
  induction l generalizing a with
  | nil => exact Or.inl rfl
  | cons x xs ih =>
      rw [List.foldl_cons]
      rcases ih (min a x) with h | h
      · rw [h]
        rcases min_choice a x with hc | hc
        · exact Or.inl hc
        · exact Or.inr (by rw [hc]; exact List.mem_cons_self x xs)
      · exact Or.inr (List.mem_cons_of_mem x h)

/-- `Math.min(...l)` equals any value that is a member of `l` and a lower
bound for `l`. -/
lemma jsMin_eq {l : List ℚ} {m : ℚ} (hmem : m ∈ l) (hlb : ∀ b ∈ l, m ≤ b) :
    jsMin l = m := by
  cases l with
  | nil => cases hmem
  | cons a rest =>
      apply le_antisymm
      · rcases List.mem_cons.mp hmem with h | h
        · subst h; exact foldl_min_le_init rest m
        · exact foldl_min_le_mem rest a m h
      · rcases foldl_min_mem rest a with h | h
        · rw [jsMin, h]; exact hlb a (List.mem_cons_self a rest)
        · rw [jsMin]; exact hlb _ (List.mem_cons_of_mem a h)

lemma init_le_foldl_max (l : List ℚ) (a : ℚ) : a ≤ l.foldl max a := by
  induction l generalizing a with
  | nil => simp
  | cons x xs ih => exact le_trans (le_max_left a x) (ih (max a x))

lemma mem_le_foldl_max (l : List ℚ) (a : ℚ) : ∀ b ∈ l, b ≤ l.foldl max a := by
  induction l generalizing a with
  | nil => intro b hb; cases hb
  | cons x xs ih =>
      intro b hb
      rcases List.mem_cons.mp hb with hb | hb
      · subst hb
        exact le_trans (le_max_right a b) (init_le_foldl_max xs (max a b))
      · exact ih (max a x) b hb

lemma foldl_max_mem (l : List ℚ) (a : ℚ) :
    l.foldl max a = a ∨ l.foldl max a ∈ l := by
  induction l generalizing a with
  | nil => exact Or.inl rfl
  | cons x xs ih =>
      rw [List.foldl_cons]
      rcases ih (max a x) with h | h
      · rw [h]
        rcases max_choice a x with hc | hc
        · exact Or.inl hc
        · exact Or.inr (by rw [hc]; exact List.mem_cons_self x xs)
      · exact Or.inr (List.mem_cons_of_mem x h)

/-- `Math.max(...l)` equals any value that is a member of `l` and an upper
bound for `l`. -/
lemma jsMax_eq {l : List ℚ} {m : ℚ} (hmem : m ∈ l) (hub : ∀ b ∈ l, b ≤ m) :
    jsMax l = m := by
  cases l with
  | nil => cases hmem
  | cons a rest =>
      apply le_antisymm
      · rcases foldl_max_mem rest a with h | h
        · rw [jsMax, h]; exact hub a (List.mem_cons_self a rest)
        · rw [jsMax]; exact hub _ (List.mem_cons_of_mem a h)
      · rcases List.mem_cons.mp hmem with h | h
        · subst h; exact init_le_foldl_max rest m
        · exact mem_le_foldl_max rest a m h

/-- `const sx = Math.max(0, Math.floor(x))` — identical in both variants. -/
def sxOf (x : ℚ) : ℤ := max 0 ⌊x⌋

/-- `const sy = Math.max(0, Math.floor(y))` — identical in both variants. -/
def syOf (y : ℚ) : ℤ := max 0 ⌊y⌋

/-- `const sw = Math.min(canvas.width - sx, Math.floor(w))` — identical in
both variants. -/
def swOf (W : ℕ) (x w : ℚ) : ℤ := min ((W : ℤ) - sxOf x) ⌊w⌋

/-- Number of loop iterations of `for (let i = 0; i < data.length; i += 40)`
over an RGBA buffer of `sw * sh` pixels (`data.length = 4 * sw * sh`):
the iterations are `i = 40k` with `40k < 4·sw·sh`, i.e. `10k < sw·sh`. -/
def numSamples (sw sh : ℕ) : ℕ := (sw * sh + 9) / 10

/-- The pixel read at loop iteration `k`: byte index `i = 40k` addresses the
pixel with row-major linear index `10k` inside the sampled region, i.e.
column `10k % sw` and row `10k / sw`, offset by the region origin. -/
def samplePixel (pix : ℕ → ℕ → RGB) (sx sy sw k : ℕ) : RGB :=
  pix (sx + 10 * k % sw) (sy + 10 * k / sw)

/-- `Math.min(255, Math.round(q))` for an already-offset channel average,
returned as a natural. -/
def clampChannel (q : ℚ) : ℕ := (min 255 (round q)).toNat

lemma clampChannel_natCast (n : ℕ) : clampChannel (n : ℚ) = min 255 n := by
  unfold clampChannel
  rw [round_natCast]
  omega

lemma clampChannel_le (q : ℚ) : clampChannel q ≤ 255 := by
  unfold clampChannel
  omega

lemma numSamples_pos {sw sh : ℕ} (hsw : 0 < sw) (hsh : 0 < sh) :
    0 < numSamples sw sh := by
  have h : 0 < sw * sh := Nat.mul_pos hsw hsh
  unfold numSamples
  omega

lemma ten_mul_lt_of_lt_numSamples {k sw sh : ℕ} (hk : k < numSamples sw sh) :
    10 * k < sw * sh := by
  unfold numSamples at hk
  omega

/-- Every sample drawn by the loop stays inside the `sw × sh` region, so a
region-uniform pixel function makes every sample equal to the uniform
colour. -/
lemma samplePixel_uniform {pix : ℕ → ℕ → RGB} {c : RGB} {sx sy sw sh k : ℕ}
    (hsw : 0 < sw) (hk : k < numSamples sw sh)
    (hpix : ∀ px py, px < sw → py < sh → pix (sx + px) (sy + py) = c) :
    samplePixel pix sx sy sw k = c := by
  have h10 : 10 * k < sw * sh := ten_mul_lt_of_lt_numSamples hk
  have hcol : 10 * k % sw < sw := Nat.mod_lt _ hsw
  have hrow : 10 * k / sw < sh := by
    rw [Nat.div_lt_iff_lt_mul hsw, Nat.mul_comm sh sw]
    exact h10
  exact hpix _ _ hcol hrow

namespace Part0

/-- Default colour of the `src/unnamed/part_000` sampler (`{r:200,g:160,b:140}`),
returned when the clamped rectangle is degenerate or no pixel was counted. -/
def defaultColor : RGB := ⟨200, 160, 140⟩

/-- `const sh = Math.min(canvas.height - sy, Math.floor(h))`. -/
def shOf (H : ℕ) (y h : ℚ) : ℤ := min ((H : ℤ) - syOf y) ⌊h⌋

/-- Accumulated `r` over the sampling loop (`r += data[i]` every 40 bytes). -/
def rSum (pix : ℕ → ℕ → RGB) (sx sy sw N : ℕ) : ℕ :=
  Finset.sum (Finset.range N) (fun k => (samplePixel pix sx sy sw k).r)

/-- Accumulated `g` over the sampling loop. -/
def gSum (pix : ℕ → ℕ → RGB) (sx sy sw N : ℕ) : ℕ :=
  Finset.sum (Finset.range N) (fun k => (samplePixel pix sx sy sw k).g)

/-- Accumulated `b` over the sampling loop. -/
def bSum (pix : ℕ → ℕ → RGB) (sx sy sw N : ℕ) : ℕ :=
  Finset.sum (Finset.range N) (fun k => (samplePixel pix sx sy sw k).b)

/-- The averaging tail of `computeAverageColor`: the loop increments `count`
on every iteration, so `count` is exactly the number of iterations
`numSamples sw sh`; if it is zero the default is returned, otherwise each
channel is `Math.min(255, Math.round(sum / count + 10))`. -/
def avgOf (pix : ℕ → ℕ → RGB) (sx sy sw sh : ℕ) : RGB :=
  let N := numSamples sw sh
  if N = 0 then defaultColor
  else
    ⟨clampChannel ((rSum pix sx sy sw N : ℚ) / (N : ℚ) + 10),
     clampChannel ((gSum pix sx sy sw N : ℚ) / (N : ℚ) + 10),
     clampChannel ((bSum pix sx sy sw N : ℚ) / (N : ℚ) + 10)⟩

/-- `computeAverageColor(x, y, w, h)` of `src/unnamed/part_000`, lines 42-67,
reading from a canvas of size `W × H` whose pixel at column `i`, row `j` is
`pix i j`. -/
def computeAverageColor (pix : ℕ → ℕ → RGB) (W H : ℕ) (x y w h : ℚ) : RGB :=
  if swOf W x w ≤ 0 ∨ shOf H y h ≤ 0 then defaultColor
  else avgOf pix (sxOf x).toNat (syOf y).toNat (swOf W x w).toNat (shOf H y h).toNat

lemma avgOf_uniform_p0 {pix : ℕ → ℕ → RGB} {c : RGB} {sx sy sw sh : ℕ}
    (hsw : 0 < sw) (hsh : 0 < sh)
    (hpix : ∀ px py, px < sw → py < sh → pix (sx + px) (sy + py) = c) :
    avgOf pix sx sy sw sh =
      ⟨min 255 (c.r + 10), min 255 (c.g + 10), min 255 (c.b + 10)⟩ := by
  have hN : numSamples sw sh ≠ 0 := (numSamples_pos hsw hsh).ne'
  have hNQ : ((numSamples sw sh : ℕ) : ℚ) ≠ 0 := Nat.cast_ne_zero.mpr hN
  have hsample : ∀ k ∈ Finset.range (numSamples sw sh),
      samplePixel pix sx sy sw k = c := by
    intro k hk
    exact samplePixel_uniform hsw (Finset.mem_range.mp hk) hpix
  have hr : rSum pix sx sy sw (numSamples sw sh) = numSamples sw sh * c.r := by
    unfold rSum
    rw [Finset.sum_congr rfl (fun k hk => by rw [hsample k hk])]
    simp [Finset.sum_const, Finset.card_range, Nat.smul_one_eq_cast]
  have hg : gSum pix sx sy sw (numSamples sw sh) = numSamples sw sh * c.g := by
    unfold gSum
    rw [Finset.sum_congr rfl (fun k hk => by rw [hsample k hk])]
    simp [Finset.sum_const, Finset.card_range]
  have hb : bSum pix sx sy sw (numSamples sw sh) = numSamples sw sh * c.b := by
    unfold bSum
    rw [Finset.sum_congr rfl (fun k hk => by rw [hsample k hk])]
    simp [Finset.sum_const, Finset.card_range]
  have havg : ∀ ch : ℕ,
      ((numSamples sw sh * ch : ℕ) : ℚ) / ((numSamples sw sh : ℕ) : ℚ) + 10 =
        ((ch + 10 : ℕ) : ℚ) := by
    intro ch
    push_cast
    field_simp
  unfold avgOf
  simp only [hN, if_false, hr, hg, hb]
  rw [havg c.r, havg c.g, havg c.b,
    clampChannel_natCast, clampChannel_natCast, clampChannel_natCast]

/-- Uniform sampling lemma lifted to `Part0.computeAverageColor`: whenever
the clamped rectangle is nondegenerate and the pixels it covers all have
colour `c`, the result is `c` brightened by 10 and clamped at 255. -/
lemma computeAverageColor_uniform_p0 (pix : ℕ → ℕ → RGB) (W H : ℕ)
    (x y w h : ℚ) (c : RGB)
    (hsw : 0 < swOf W x w) (hsh : 0 < shOf H y h)
    (hpix : ∀ px py, px < (swOf W x w).toNat → py < (shOf H y h).toNat →
      pix ((sxOf x).toNat + px) ((syOf y).toNat + py) = c) :
    computeAverageColor pix W H x y w h =
      ⟨min 255 (c.r + 10), min 255 (c.g + 10), min 255 (c.b + 10)⟩ := by
  unfold computeAverageColor
  rw [if_neg (by omega)]
  exact avgOf_uniform_p0 (by omega) (by omega) hpix

end Part0

namespace Script

/-- Default colour of the `src/script.js` sampler (`{r:220,g:160,b:140}`). -/
def defaultColor : RGB := ⟨220, 160, 140⟩

/-- `const sh = Math.min(canvas.height - sy, Math.floor(h * 0.4))` — this
variant samples only the top 40% of the requested rectangle. -/
def shOf (H : ℕ) (y h : ℚ) : ℤ := min ((H : ℤ) - syOf y) ⌊h * 0.4⌋

/-- `(r + g + b) / 3` of a sampled pixel, as a rational. -/
def brightnessOf (c : RGB) : ℚ := ((c.r : ℚ) + (c.g : ℚ) + (c.b : ℚ)) / 3

/-- The brightness filter `brightness > 40 && brightness < 230` applied to
each sampled pixel before it is accumulated. -/
def keep (c : RGB) : Prop := 40 < brightnessOf c ∧ brightnessOf c < 230

instance : DecidablePred keep := fun c =>
  inferInstanceAs (Decidable (40 < brightnessOf c ∧ brightnessOf c < 230))

/-- Accumulated `rSum` over the loop: a sample contributes only if it passes
the brightness filter. -/
def rSum (pix : ℕ → ℕ → RGB) (sx sy sw N : ℕ) : ℕ :=
  Finset.sum (Finset.range N) (fun k =>
    if keep (samplePixel pix sx sy sw k) then (samplePixel pix sx sy sw k).r else 0)

/-- Accumulated `gSum` over the loop. -/
def gSum (pix : ℕ → ℕ → RGB) (sx sy sw N : ℕ) : ℕ :=
  Finset.sum (Finset.range N) (fun k =>
    if keep (samplePixel pix sx sy sw k) then (samplePixel pix sx sy sw k).g else 0)

/-- Accumulated `bSum` over the loop. -/
def bSum (pix : ℕ → ℕ → RGB) (sx sy sw N : ℕ) : ℕ :=
  Finset.sum (Finset.range N) (fun k =>
    if keep (samplePixel pix sx sy sw k) then (samplePixel pix sx sy sw k).b else 0)

/-- `count`: the number of samples that passed the brightness filter. -/
def cntOf (pix : ℕ → ℕ → RGB) (sx sy sw N : ℕ) : ℕ :=
  Finset.sum (Finset.range N) (fun k =>
    if keep (samplePixel pix sx sy sw k) then 1 else 0)

/-- The averaging tail of the filtered sampler: default on `count === 0`,
otherwise each channel is `Math.min(255, Math.round(sum / count + 15))`. -/
def avgOf (pix : ℕ → ℕ → RGB) (sx sy sw sh : ℕ) : RGB :=
  let N := numSamples sw sh
  let cnt := cntOf pix sx sy sw N
  if cnt = 0 then defaultColor
  else
    ⟨clampChannel ((rSum pix sx sy sw N : ℚ) / (cnt : ℚ) + 15),
     clampChannel ((gSum pix sx sy sw N : ℚ) / (cnt : ℚ) + 15),
     clampChannel ((bSum pix sx sy sw N : ℚ) / (cnt : ℚ) + 15)⟩

/-- `computeAverageColor(x, y, w, h)` of `src/script.js`, lines 52-91. -/
def computeAverageColor (pix : ℕ → ℕ → RGB) (W H : ℕ) (x y w h : ℚ) : RGB :=
  if swOf W x w ≤ 0 ∨ shOf H y h ≤ 0 then defaultColor
  else avgOf pix (sxOf x).toNat (syOf y).toNat (swOf W x w).toNat (shOf H y h).toNat

lemma avgOf_uniform_s {pix : ℕ → ℕ → RGB} {c : RGB} {sx sy sw sh : ℕ}
    (hsw : 0 < sw) (hsh : 0 < sh) (hkeep : keep c)
    (hpix : ∀ px py, px < sw → py < sh → pix (sx + px) (sy + py) = c) :
    avgOf pix sx sy sw sh =
      ⟨min 255 (c.r + 15), min 255 (c.g + 15), min 255 (c.b + 15)⟩ := by
  have hN : numSamples sw sh ≠ 0 := (numSamples_pos hsw hsh).ne'
  have hsample : ∀ k ∈ Finset.range (numSamples sw sh),
      samplePixel pix sx sy sw k = c := by
    intro k hk
    exact samplePixel_uniform hsw (Finset.mem_range.mp hk) hpix
  have hcnt : cntOf pix sx sy sw (numSamples sw sh) = numSamples sw sh := by
    unfold cntOf
    rw [Finset.sum_congr rfl
      (fun k hk => by rw [hsample k hk, if_pos hkeep])]
    simp [Finset.sum_const, Finset.card_range]
  have hr : rSum pix sx sy sw (numSamples sw sh) = numSamples sw sh * c.r := by
    unfold rSum
    rw [Finset.sum_congr rfl
      (fun k hk => by rw [hsample k hk, if_pos hkeep])]
    simp [Finset.sum_const, Finset.card_range]
  have hg : gSum pix sx sy sw (numSamples sw sh) = numSamples sw sh * c.g := by
    unfold gSum
    rw [Finset.sum_congr rfl
      (fun k hk => by rw [hsample k hk, if_pos hkeep])]
    simp [Finset.sum_const, Finset.card_range]
  have hb : bSum pix sx sy sw (numSamples sw sh) = numSamples sw sh * c.b := by
    unfold bSum
    rw [Finset.sum_congr rfl
      (fun k hk => by rw [hsample k hk, if_pos hkeep])]
    simp [Finset.sum_const, Finset.card_range]
  have havg : ∀ ch : ℕ,
      ((numSamples sw sh * ch : ℕ) : ℚ) / ((numSamples sw sh : ℕ) : ℚ) + 15 =
        ((ch + 15 : ℕ) : ℚ) := by
    intro ch
    push_cast
    field_simp
  unfold avgOf
  simp only [hcnt, hN, if_false, hr, hg, hb]
  rw [havg c.r, havg c.g, havg c.b,
    clampChannel_natCast, clampChannel_natCast, clampChannel_natCast]

/-- Uniform sampling lemma lifted to `Script.computeAverageColor`. -/
lemma computeAverageColor_uniform_s (pix : ℕ → ℕ → RGB) (W H : ℕ)
    (x y w h : ℚ) (c : RGB)
    (hsw : 0 < swOf W x w) (hsh : 0 < shOf H y h) (hkeep : keep c)
    (hpix : ∀ px py, px < (swOf W x w).toNat → py < (shOf H y h).toNat →
      pix ((sxOf x).toNat + px) ((syOf y).toNat + py) = c) :
    computeAverageColor pix W H x y w h =
      ⟨min 255 (c.r + 15), min 255 (c.g + 15), min 255 (c.b + 15)⟩ := by
  unfold computeAverageColor
  rw [if_neg (by omega)]
  exact avgOf_uniform_s (by omega) (by omega) hkeep hpix

end Script

namespace Part0

/-- The detected-path placement of `src/unnamed/part_000`, lines 166-179:
bounding box from the landmark spread (`Math.min(...xs)` etc.), then
`overlayW = faceW * (0.45 + 0.3*intensity)`,
`overlayH = faceH * (0.25 + 0.15*intensity)`,
`x = (minX+maxX)/2 - overlayW/2`, `y = maxY - overlayH*0.4`. -/
def detectedRect (lms : List Landmark) (iw ih intensity : ℚ) : Rect :=
  let xs := lms.map fun pt => pt.x * iw
  let ys := lms.map fun pt => pt.y * ih
  let minX := jsMin xs
  let maxX := jsMax xs
  let minY := jsMin ys
  let maxY := jsMax ys
  let faceW := maxX - minX
  let faceH := maxY - minY
  let overlayW := faceW * (0.45 + 0.3 * intensity)
  let overlayH := faceH * (0.25 + 0.15 * intensity)
  let x := (minX + maxX) / 2 - overlayW / 2
  let y := maxY - overlayH * 0.4
  ⟨x, y, overlayW, overlayH⟩

/-- The fallback placement of `src/unnamed/part_000`, lines 122-127:
`w = canvas.width * (0.3 + 0.2*intensity)`,
`h = canvas.height * (0.15 + 0.1*intensity)`,
`x = canvas.width/2 - w/2`, `y = canvas.height * 0.65`. -/
def fallbackRect (W H intensity : ℚ) : Rect :=
  let w := W * (0.3 + 0.2 * intensity)
  let h := H * (0.15 + 0.1 * intensity)
  let x := W / 2 - w / 2
  let y := H * 0.65
  ⟨x, y, w, h⟩

/-- `drawBallsChin(x, y, w, h, fillColor, outlineColor)` of
`src/unnamed/part_000`, lines 70-119, as the list of canvas commands it
issues: two filled-and-stroked ellipses (centres at 25%/75% width and 60%
height, radii 25% width and 40% height), the central valley line from 35%
to 80% height, and the top connecting arc of radius 25% width. -/
def drawBallsChin (x y w h : ℚ) (fillColor outlineColor : RGB) : List MainCmd :=
  [MainCmd.fillEllipse (x + w * 0.25) (y + h * 0.6) (w * 0.25) (h * 0.4) fillColor,
   MainCmd.strokeEllipse (x + w * 0.25) (y + h * 0.6) (w * 0.25) (h * 0.4) outlineColor,
   MainCmd.fillEllipse (x + w * 0.75) (y + h * 0.6) (w * 0.25) (h * 0.4) fillColor,
   MainCmd.strokeEllipse (x + w * 0.75) (y + h * 0.6) (w * 0.25) (h * 0.4) outlineColor,
   MainCmd.strokeLine (x + w / 2) (y + h * 0.35) (x + w / 2) (y + h * 0.8) outlineColor,
   MainCmd.strokeArcTop (x + w / 2) (y + h * 0.35) (w * 0.25) outlineColor]

/-- `drawFallback()` of `src/unnamed/part_000`, lines 122-132: compute the
fallback rectangle, sample the average colour under it, and draw the
procedural chin with black outline. -/
def drawFallback (pix : ℕ → ℕ → RGB) (iw ih : ℕ) (intensity : ℚ)
    (cmds : List MainCmd) : List MainCmd :=
  let r := fallbackRect (iw : ℚ) (ih : ℚ) intensity
  let c := computeAverageColor pix iw ih r.x r.y r.w r.h
  cmds ++ drawBallsChin r.x r.y r.w r.h c ⟨0, 0, 0⟩

/-- The generate-button click handler of `src/unnamed/part_000`, lines
135-193, as a state transformer.  `outcome` abstracts the awaited external
detector call; `pix` is the canvas content sampled by
`computeAverageColor` after the uploaded image is redrawn.  The handler
returns early when no image is uploaded; otherwise it disables both
buttons, clears and redraws, branches on the detector outcome (an
exception is caught and routed to the fallback), and finally re-enables
both buttons. -/
def generateClick (pix : ℕ → ℕ → RGB) (intensity : ℚ)
    (outcome : DetectOutcome) (st : AppState) : AppState :=
  match st.uploadedImage with
  | none => st
  | some (iw, ih) =>
    let cleared := st.cmds ++ [MainCmd.clear, MainCmd.drawUploaded]
    let cmds2 :=
      match outcome with
      | DetectOutcome.threw => drawFallback pix iw ih intensity cleared
      | DetectOutcome.noFace => drawFallback pix iw ih intensity cleared
      | DetectOutcome.face lms =>
          let r := detectedRect lms (iw : ℚ) (ih : ℚ) intensity
          let c := computeAverageColor pix iw ih r.x r.y r.w r.h
          cleared ++ drawBallsChin r.x r.y r.w r.h c ⟨0, 0, 0⟩
    { uploadedImage := st.uploadedImage, generateDisabled := false,
      downloadDisabled := false, cmds := cmds2 }

end Part0

namespace Script

/-- The offscreen-canvas compositing pipeline of `drawTintedChin`: mask,
`source-in` tint fill, outline. -/
def tintedOffscreen (fillColor : RGB) : List OffCmd :=
  [OffCmd.drawMask, OffCmd.sourceInFill fillColor, OffCmd.drawOutline]

/-- `drawTintedChin(x, y, w, h, fillColor)` of `src/script.js`, lines
105-127: if `!maskImg.complete || !outlineImg.complete ||
maskImg.naturalWidth === 0`, return without drawing anything; otherwise
composite the tinted chin on an offscreen canvas sized to the mask and draw
it onto the main canvas at the destination rectangle. -/
def drawTintedChin (maskImg outlineImg : ImgAsset) (cmds : List MainCmd)
    (x y w h : ℚ) (fillColor : RGB) : List MainCmd :=
  if maskImg.complete = false ∨ outlineImg.complete = false ∨
      maskImg.naturalWidth = 0 then
    cmds
  else
    cmds ++ [MainCmd.drawOffscreen maskImg.width maskImg.height
      (tintedOffscreen fillColor) x y w h]

/-- The detected-path placement of `src/script.js`, lines 176-196: like the
procedural variant but with `overlayW` additionally scaled by
`widthFactor` and `y` shifted by `verticalOffset * faceH`. -/
def detectedRect (lms : List Landmark)
    (iw ih intensity widthFactor verticalOffset : ℚ) : Rect :=
  let xs := lms.map fun pt => pt.x * iw
  let ys := lms.map fun pt => pt.y * ih
  let minX := jsMin xs
  let maxX := jsMax xs
  let minY := jsMin ys
  let maxY := jsMax ys
  let faceW := maxX - minX
  let faceH := maxY - minY
  let overlayW := faceW * (0.45 + 0.3 * intensity) * widthFactor
  let overlayH := faceH * (0.25 + 0.15 * intensity)
  let x := (minX + maxX) / 2 - overlayW / 2
  let y := maxY - overlayH * 0.4 + verticalOffset * faceH
  ⟨x, y, overlayW, overlayH⟩

/-- The fallback placement of `src/script.js`, lines 130-139: `w` scaled by
`widthFactor`, `y` shifted by `verticalOffset * canvas.height`. -/
def fallbackRect (W H intensity widthFactor verticalOffset : ℚ) : Rect :=
  let w := W * (0.3 + 0.2 * intensity) * widthFactor
  let h := H * (0.15 + 0.1 * intensity)
  let x := W / 2 - w / 2
  let y := H * 0.65 + verticalOffset * H
  ⟨x, y, w, h⟩

/-- The eye-line angle of `src/script.js`, lines 200-208: `angle` starts at
0 and is reassigned to `Math.atan2(dy, dx)` between landmarks 263 and 33
(scaled to pixel space) only when `landmarks.length > 263`.  `Math.atan2`
is an external real-valued primitive; it is abstracted as the supplied
function `atan2fn`. -/
def chinAngle (atan2fn : ℚ → ℚ → ℚ) (lms : List Landmark) (iw ih : ℚ) : ℚ :=
  if 263 < lms.length then
    let leftEye := lms.getD 33 default
    let rightEye := lms.getD 263 default
    atan2fn ((rightEye.y - leftEye.y) * ih) ((rightEye.x - leftEye.x) * iw)
  else 0

/-- `drawFallback()` of `src/script.js`, lines 130-143: fallback rectangle,
sampled colour, then `drawTintedChin`. -/
def drawFallback (maskImg outlineImg : ImgAsset) (pix : ℕ → ℕ → RGB)
    (iw ih : ℕ) (intensity widthFactor verticalOffset : ℚ)
    (cmds : List MainCmd) : List MainCmd :=
  let r := fallbackRect (iw : ℚ) (ih : ℚ) intensity widthFactor verticalOffset
  let c := computeAverageColor pix iw ih r.x r.y r.w r.h
  drawTintedChin maskImg outlineImg cmds r.x r.y r.w r.h c

/-- The generate-button click handler of `src/script.js`, lines 146-240, as
a state transformer.  On the detected path the overlay is drawn rotated by
`chinAngle` about the rectangle centre, guarded by the same asset-readiness
check as `drawTintedChin` (lines 210-231); a caught exception and an absent
landmark set both route to `drawFallback`; both buttons are re-enabled at
the end. -/
def generateClick (atan2fn : ℚ → ℚ → ℚ) (maskImg outlineImg : ImgAsset)
    (pix : ℕ → ℕ → RGB) (intensity widthFactor verticalOffset : ℚ)
    (outcome : DetectOutcome) (st : AppState) : AppState :=
  match st.uploadedImage with
  | none => st
  | some (iw, ih) =>
    let cleared := st.cmds ++ [MainCmd.clear, MainCmd.drawUploaded]
    let cmds2 :=
      match outcome with
      | DetectOutcome.threw =>
          drawFallback maskImg outlineImg pix iw ih intensity widthFactor
            verticalOffset cleared
      | DetectOutcome.noFace =>
          drawFallback maskImg outlineImg pix iw ih intensity widthFactor
            verticalOffset cleared
      | DetectOutcome.face lms =>
          let r := detectedRect lms (iw : ℚ) (ih : ℚ) intensity widthFactor
            verticalOffset
          let c := computeAverageColor pix iw ih r.x r.y r.w r.h
          let angle := chinAngle atan2fn lms (iw : ℚ) (ih : ℚ)
          if maskImg.complete = false ∨ outlineImg.complete = false ∨
              maskImg.naturalWidth = 0 then
            cleared
          else
            cleared ++ [MainCmd.drawOffscreenRotated maskImg.width
              maskImg.height (tintedOffscreen c) (r.x + r.w / 2)
              (r.y + r.h / 2) angle r.w r.h]
    { uploadedImage := st.uploadedImage, generateDisabled := false,
      downloadDisabled := false, cmds := cmds2 }

end Script

lemma script_avgOf_channels_le (pix : ℕ → ℕ → RGB) (sx sy sw sh : ℕ) :
    (Script.avgOf pix sx sy sw sh).r ≤ 255 ∧
    (Script.avgOf pix sx sy sw sh).g ≤ 255 ∧
    (Script.avgOf pix sx sy sw sh).b ≤ 255 := by
  simp only [Script.avgOf]
  split
  · decide
  · exact ⟨clampChannel_le _, clampChannel_le _, clampChannel_le _⟩

lemma part0_avgOf_channels_le (pix : ℕ → ℕ → RGB) (sx sy sw sh : ℕ) :
    (Part0.avgOf pix sx sy sw sh).r ≤ 255 ∧
    (Part0.avgOf pix sx sy sw sh).g ≤ 255 ∧
    (Part0.avgOf pix sx sy sw sh).b ≤ 255 := by
  simp only [Part0.avgOf]
  split
  · decide
  · exact ⟨clampChannel_le _, clampChannel_le _, clampChannel_le _⟩

/-- C2: whenever either variant's `computeAverageColor` takes the
non-default branch — i.e. the clamped width and height are positive — the
clamped rectangle `(sx, sy, sw, sh)` satisfies `sx ≥ 0`, `sy ≥ 0`,
`sx + sw ≤ W`, `sy + sh ≤ H`, so sampling never reads outside the source
bitmap; this is proved for every rational input rectangle, which covers the
placement rectangles of both placement paths at arbitrary slider values. -/
theorem claim_C2_clamp_in_bounds (W H : ℕ) (x y w h : ℚ) :
    (0 < swOf W x w → 0 < Script.shOf H y h →
      0 ≤ sxOf x ∧ 0 ≤ syOf y ∧ sxOf x + swOf W x w ≤ (W : ℤ) ∧
        syOf y + Script.shOf H y h ≤ (H : ℤ)) ∧
    (0 < swOf W x w → 0 < Part0.shOf H y h →
      0 ≤ sxOf x ∧ 0 ≤ syOf y ∧ sxOf x + swOf W x w ≤ (W : ℤ) ∧
        syOf y + Part0.shOf H y h ≤ (H : ℤ)) := by
  simp only [sxOf, syOf, swOf, Script.shOf, Part0.shOf]
  constructor <;> intro h1 h2 <;> omega

/-- Witness for C2 at the concrete rectangle (0, 0, 10, 10) in a 10×10
bitmap (both variants sample there). -/
theorem claim_C2_clamp_in_bounds_witness :
    (0 < swOf 10 0 10 ∧ 0 < Script.shOf 10 0 10 ∧ 0 < Part0.shOf 10 0 10) ∧
    (0 ≤ sxOf 0 ∧ 0 ≤ syOf 0 ∧ sxOf 0 + swOf 10 0 10 ≤ (10 : ℤ) ∧
      syOf 0 + Script.shOf 10 0 10 ≤ (10 : ℤ)) ∧
    (0 ≤ sxOf 0 ∧ 0 ≤ syOf 0 ∧ sxOf 0 + swOf 10 0 10 ≤ (10 : ℤ) ∧
      syOf 0 + Part0.shOf 10 0 10 ≤ (10 : ℤ)) :=
  ⟨⟨by norm_num [swOf, sxOf], by norm_num [Script.shOf, syOf],
    by norm_num [Part0.shOf, syOf]⟩,
   (claim_C2_clamp_in_bounds 10 10 0 0 10 10).1
     (by norm_num [swOf, sxOf]) (by norm_num [Script.shOf, syOf]),
   (claim_C2_clamp_in_bounds 10 10 0 0 10 10).2
     (by norm_num [swOf, sxOf]) (by norm_num [Part0.shOf, syOf])⟩

/-- C4: for every canvas size, intensity and (in the asset variant)
widthFactor/verticalOffset, the fallback rectangle equals the spec formula
`w = W·(0.3+0.2·i)[·wf]`, `h = H·(0.15+0.1·i)`, `x = W/2 − w/2`,
`y = 0.65·H [+ vo·H]`; the function takes no face data at all, so the
result cannot depend on any. -/
theorem claim_C4_fallback_formula (W H intensity widthFactor verticalOffset : ℚ) :
    Script.fallbackRect W H intensity widthFactor verticalOffset =
      ⟨W / 2 - W * (0.3 + 0.2 * intensity) * widthFactor / 2,
       0.65 * H + verticalOffset * H,
       W * (0.3 + 0.2 * intensity) * widthFactor,
       H * (0.15 + 0.1 * intensity)⟩ ∧
    Part0.fallbackRect W H intensity =
      ⟨W / 2 - W * (0.3 + 0.2 * intensity) / 2,
       0.65 * H,
       W * (0.3 + 0.2 * intensity),
       H * (0.15 + 0.1 * intensity)⟩ := by
  constructor <;>
    · simp only [Script.fallbackRect, Part0.fallbackRect, Rect.mk.injEq]
      exact ⟨by ring, by ring, by ring, by ring⟩

/-- A counterexample to C7 as stated: the outline asset below is not fully
loaded (its natural width is 0, as for a failed image load where `complete`
is true), yet `drawTintedChin` is not a no-op — the source only checks
`maskImg.naturalWidth`, never `outlineImg.naturalWidth`. -/
theorem claim_C7_counterexample :
    (⟨true, 0, 8, 8⟩ : ImgAsset).naturalWidth = 0 ∧
    Script.drawTintedChin ⟨true, 9, 9, 9⟩ ⟨true, 0, 8, 8⟩ [] 0 0 1 1 ⟨0, 0, 0⟩ ≠ [] := by
  constructor
  · rfl
  · decide

/-- C7 (amended): if the mask's completion flag is false, the outline's
completion flag is false, or the mask's natural width is zero, then
`drawTintedChin` returns without drawing and leaves the canvas completely
unchanged (a silent no-op; being a total function, it cannot throw).  The
outline's natural width is not part of the check. -/
theorem claim_C7_not_ready_noop (maskImg outlineImg : ImgAsset)
    (cmds : List MainCmd) (x y w h : ℚ) (fillColor : RGB)
    (hna : maskImg.complete = false ∨ outlineImg.complete = false ∨
      maskImg.naturalWidth = 0) :
    Script.drawTintedChin maskImg outlineImg cmds x y w h fillColor = cmds := by
  unfold Script.drawTintedChin
  rw [if_pos hna]

/-- Witness for the amended C7: a mask with `complete = false` produces a
no-op on a nonempty canvas. -/
theorem claim_C7_not_ready_noop_witness :
    ((⟨false, 0, 0, 0⟩ : ImgAsset).complete = false ∨
      (⟨true, 5, 5, 5⟩ : ImgAsset).complete = false ∨
      (⟨false, 0, 0, 0⟩ : ImgAsset).naturalWidth = 0) ∧
    Script.drawTintedChin ⟨false, 0, 0, 0⟩ ⟨true, 5, 5, 5⟩ [MainCmd.clear]
      1 2 3 4 ⟨9, 9, 9⟩ = [MainCmd.clear] :=
  ⟨Or.inl rfl,
   claim_C7_not_ready_noop ⟨false, 0, 0, 0⟩ ⟨true, 5, 5, 5⟩ [MainCmd.clear]
     1 2 3 4 ⟨9, 9, 9⟩ (Or.inl rfl)⟩

/-- C8: both samplers are total functions (they are plain `def`s with no
error outcome) and on every bitmap and every rational rectangle — including
the case where the brightness filter rejects all samples, which hits the
`count === 0` default branch — every channel of the result is a natural
number at most 255. -/
theorem claim_C8_sampler_total (pix : ℕ → ℕ → RGB) (W H : ℕ) (x y w h : ℚ) :
    ((Script.computeAverageColor pix W H x y w h).r ≤ 255 ∧
     (Script.computeAverageColor pix W H x y w h).g ≤ 255 ∧
     (Script.computeAverageColor pix W H x y w h).b ≤ 255) ∧
    ((Part0.computeAverageColor pix W H x y w h).r ≤ 255 ∧
     (Part0.computeAverageColor pix W H x y w h).g ≤ 255 ∧
     (Part0.computeAverageColor pix W H x y w h).b ≤ 255) := by
  constructor
  · unfold Script.computeAverageColor
    split
    · decide
    · exact script_avgOf_channels_le pix _ _ _ _
  · unfold Part0.computeAverageColor
    split
    · decide
    · exact part0_avgOf_channels_le pix _ _ _ _

/-- C10: in the asset variant's detected path, the rotation angle defaults
to 0 whenever the landmark set has 263 or fewer points, and only with more
than 263 points is it `atan2(dy, dx)` of the pixel-space delta between
landmarks 263 and 33 — for every abstraction `atan2fn` of the external
`Math.atan2` primitive. -/
theorem claim_C10_angle_default (atan2fn : ℚ → ℚ → ℚ) (lms : List Landmark)
    (iw ih : ℚ) :
    (lms.length ≤ 263 → Script.chinAngle atan2fn lms iw ih = 0) ∧
    (263 < lms.length → Script.chinAngle atan2fn lms iw ih =
      atan2fn (((lms.getD 263 default).y - (lms.getD 33 default).y) * ih)
        (((lms.getD 263 default).x - (lms.getD 33 default).x) * iw)) := by
  constructor
  · intro hle
    unfold Script.chinAngle
    rw [if_neg (by omega)]
  · intro hlt
    unfold Script.chinAngle
    rw [if_pos hlt]

/-- Witness for C10: the empty landmark set has at most 263 points and the
angle evaluates to 0. -/
theorem claim_C10_angle_default_witness :
    (([] : List Landmark).length ≤ 263) ∧
    Script.chinAngle (fun dy dx => dy + dx) [] 1 1 = 0 :=
  ⟨by decide, (claim_C10_angle_default (fun dy dx => dy + dx) [] 1 1).1 (by decide)⟩

/-- C9: whenever the generate handler runs past its no-image guard (an
image is uploaded, which is the only state in which the generate control is
clickable), the final state has both controls enabled, for every detector
outcome: success with landmarks, success without landmarks, and the
caught-exception fallback path, in both script variants. -/
theorem claim_C9_controls_reenabled (atan2fn : ℚ → ℚ → ℚ)
    (maskImg outlineImg : ImgAsset) (pix : ℕ → ℕ → RGB)
    (intensity widthFactor verticalOffset : ℚ) (outcome : DetectOutcome)
    (st : AppState) (iw ih : ℕ) (h : st.uploadedImage = some (iw, ih)) :
    ((Script.generateClick atan2fn maskImg outlineImg pix intensity
        widthFactor verticalOffset outcome st).generateDisabled = false ∧
     (Script.generateClick atan2fn maskImg outlineImg pix intensity
        widthFactor verticalOffset outcome st).downloadDisabled = false) ∧
    ((Part0.generateClick pix intensity outcome st).generateDisabled = false ∧
     (Part0.generateClick pix intensity outcome st).downloadDisabled = false) := by
  unfold Script.generateClick Part0.generateClick
  rw [h]
  cases outcome <;> simp

/-- Witness for C9: a concrete state with an uploaded 1×1 image and both
controls disabled, after a run whose detector threw, ends with both
controls enabled (both variants). -/
theorem claim_C9_controls_reenabled_witness :
    ((⟨some (1, 1), true, true, []⟩ : AppState).uploadedImage = some (1, 1)) ∧
    ((Script.generateClick (fun _ _ => 0) ⟨true, 1, 1, 1⟩ ⟨true, 1, 1, 1⟩
        (fun _ _ => ⟨0, 0, 0⟩) 1 1 1 DetectOutcome.threw
        ⟨some (1, 1), true, true, []⟩).generateDisabled = false ∧
     (Script.generateClick (fun _ _ => 0) ⟨true, 1, 1, 1⟩ ⟨true, 1, 1, 1⟩
        (fun _ _ => ⟨0, 0, 0⟩) 1 1 1 DetectOutcome.threw
        ⟨some (1, 1), true, true, []⟩).downloadDisabled = false) ∧
    ((Part0.generateClick (fun _ _ => ⟨0, 0, 0⟩) 1 DetectOutcome.threw
        ⟨some (1, 1), true, true, []⟩).generateDisabled = false ∧
     (Part0.generateClick (fun _ _ => ⟨0, 0, 0⟩) 1 DetectOutcome.threw
        ⟨some (1, 1), true, true, []⟩).downloadDisabled = false) :=
  ⟨rfl,
   claim_C9_controls_reenabled (fun _ _ => 0) ⟨true, 1, 1, 1⟩ ⟨true, 1, 1, 1⟩
     (fun _ _ => ⟨0, 0, 0⟩) 1 1 1 DetectOutcome.threw
     ⟨some (1, 1), true, true, []⟩ 1 1 rfl⟩

/-- A counterexample to C1 as stated: the rectangle (x, y, w, h) =
(-10, 0, 5, 10) lies fully outside a 10×10 bitmap — entirely off the left
edge, since x + w = -5 ≤ 0 — yet `computeAverageColor` does not return the
default: `sx = max(0, -10) = 0` re-anchors the rectangle at the left edge
and `sw = min(10 - 0, 5) = 5 > 0`, so pixels are sampled, giving
(110, 110, 110) on a uniform (100,100,100) bitmap. -/
theorem claim_C1_counterexample :
    ((-10 : ℚ) + 5 ≤ 0) ∧
    Part0.computeAverageColor (fun _ _ => ⟨100, 100, 100⟩) 10 10 (-10) 0 5 10 =
      ⟨110, 110, 110⟩ ∧
    (⟨110, 110, 110⟩ : RGB) ≠ Part0.defaultColor := by
  have h := Part0.computeAverageColor_uniform_p0 (fun _ _ => ⟨100, 100, 100⟩)
      10 10 (-10) 0 5 10 ⟨100, 100, 100⟩
      (by norm_num [swOf, sxOf]) (by norm_num [Part0.shOf, syOf])
      (fun _ _ _ _ => rfl)
  exact ⟨by norm_num, by rw [h]; decide, by decide⟩

/-- C1 (amended): a requested rectangle lying fully off the *right or
bottom* edge of the bitmap (`x ≥ width` or `y ≥ height`) makes the clamped
width (resp. height) non-positive, so both variants return their fixed
default RGB; the result is the same for every pixel function, i.e. no
pixels are read.  (Rectangles fully off the *left or top* edge are instead
re-anchored at the bitmap edge and can be sampled — see the
counterexample.) -/
theorem claim_C1_outside_default (pix : ℕ → ℕ → RGB) (W H : ℕ) (x y w h : ℚ)
    (hout : (W : ℚ) ≤ x ∨ (H : ℚ) ≤ y) :
    Script.computeAverageColor pix W H x y w h = Script.defaultColor ∧
    Part0.computeAverageColor pix W H x y w h = Part0.defaultColor := by
  have hcase : swOf W x w ≤ 0 ∨ (Script.shOf H y h ≤ 0 ∧ Part0.shOf H y h ≤ 0) := by
    rcases hout with hx | hy
    · left
      have hfl : (W : ℤ) ≤ ⌊x⌋ := Int.le_floor.mpr (by push_cast; exact hx)
      simp only [swOf, sxOf]
      omega
    · right
      have hfl : (H : ℤ) ≤ ⌊y⌋ := Int.le_floor.mpr (by push_cast; exact hy)
      constructor <;> simp only [Script.shOf, Part0.shOf, syOf] <;> omega
  rcases hcase with hc | ⟨hc1, hc2⟩
  · constructor
    · unfold Script.computeAverageColor
      rw [if_pos (Or.inl hc)]
    · unfold Part0.computeAverageColor
      rw [if_pos (Or.inl hc)]
  · constructor
    · unfold Script.computeAverageColor
      rw [if_pos (Or.inr hc1)]
    · unfold Part0.computeAverageColor
      rw [if_pos (Or.inr hc2)]

/-- Witness for the amended C1: a rectangle starting at x = 10 in a 10×10
bitmap is off the right edge, and both variants return their defaults. -/
theorem claim_C1_outside_default_witness :
    (((10 : ℕ) : ℚ) ≤ 10 ∨ ((10 : ℕ) : ℚ) ≤ 0) ∧
    Script.computeAverageColor (fun _ _ => ⟨1, 1, 1⟩) 10 10 10 0 5 5 =
      Script.defaultColor ∧
    Part0.computeAverageColor (fun _ _ => ⟨1, 1, 1⟩) 10 10 10 0 5 5 =
      Part0.defaultColor :=
  ⟨Or.inl (by norm_num),
   claim_C1_outside_default (fun _ _ => ⟨1, 1, 1⟩) 10 10 10 0 5 5
     (Or.inl (by norm_num))⟩

/-- A counterexample to C5 as stated: in the brightness-filtered variant, a
rectangle of height 2 inside a uniform (100,100,100) region (brightness 100
is strictly inside (40, 230)) gives a clamped sample height
`⌊2 · 0.4⌋ = 0`, so the sampler returns the default (220,160,140) rather
than the claimed C + 15 = (115,115,115). -/
theorem claim_C5_counterexample :
    ((40 : ℚ) < Script.brightnessOf ⟨100, 100, 100⟩ ∧
      Script.brightnessOf ⟨100, 100, 100⟩ < 230) ∧
    Script.computeAverageColor (fun _ _ => ⟨100, 100, 100⟩) 10 10 0 0 5 2 =
      Script.defaultColor ∧
    Script.defaultColor ≠ (⟨115, 115, 115⟩ : RGB) := by
  refine ⟨⟨by norm_num [Script.brightnessOf], by norm_num [Script.brightnessOf]⟩,
    ?_, by decide⟩
  unfold Script.computeAverageColor
  rw [if_pos (Or.inr (by norm_num [Script.shOf, syOf] :
    Script.shOf 10 (0 : ℚ) 2 ≤ 0))]

/-- C5 (amended): for a rectangle whose clamped sample region is uniformly
coloured `c` with brightness strictly inside (40, 230), *provided the
clamped sample rectangle has positive width and height* (which an arbitrary
rectangle inside the region need not give — see the counterexample), the
brightness-filtered variant returns c + 15 and the unfiltered variant
c + 10, channel-wise clamped above at 255. -/
theorem claim_C5_uniform_offset (pix : ℕ → ℕ → RGB) (W H : ℕ) (x y w h : ℚ)
    (c : RGB)
    (hbr : (40 : ℚ) < Script.brightnessOf c ∧ Script.brightnessOf c < 230) :
    (0 < swOf W x w → 0 < Script.shOf H y h →
      (∀ px py, px < (swOf W x w).toNat → py < (Script.shOf H y h).toNat →
        pix ((sxOf x).toNat + px) ((syOf y).toNat + py) = c) →
      Script.computeAverageColor pix W H x y w h =
        ⟨min 255 (c.r + 15), min 255 (c.g + 15), min 255 (c.b + 15)⟩) ∧
    (0 < swOf W x w → 0 < Part0.shOf H y h →
      (∀ px py, px < (swOf W x w).toNat → py < (Part0.shOf H y h).toNat →
        pix ((sxOf x).toNat + px) ((syOf y).toNat + py) = c) →
      Part0.computeAverageColor pix W H x y w h =
        ⟨min 255 (c.r + 10), min 255 (c.g + 10), min 255 (c.b + 10)⟩) := by
  constructor
  · intro h1 h2 h3
    exact Script.computeAverageColor_uniform_s pix W H x y w h c h1 h2 hbr h3
  · intro h1 h2 h3
    exact Part0.computeAverageColor_uniform_p0 pix W H x y w h c h1 h2 h3

/-- Witness for the amended C5: a uniform (100,100,100) 10×10 bitmap and
the rectangle (0, 0, 10, 10) give (115,115,115) in the filtered variant and
(110,110,110) in the unfiltered one. -/
theorem claim_C5_uniform_offset_witness :
    ((40 : ℚ) < Script.brightnessOf ⟨100, 100, 100⟩ ∧
      Script.brightnessOf ⟨100, 100, 100⟩ < 230) ∧
    (0 < swOf 10 0 10 ∧ 0 < Script.shOf 10 0 10 ∧ 0 < Part0.shOf 10 0 10) ∧
    Script.computeAverageColor (fun _ _ => ⟨100, 100, 100⟩) 10 10 0 0 10 10 =
      ⟨min 255 (100 + 15), min 255 (100 + 15), min 255 (100 + 15)⟩ ∧
    Part0.computeAverageColor (fun _ _ => ⟨100, 100, 100⟩) 10 10 0 0 10 10 =
      ⟨min 255 (100 + 10), min 255 (100 + 10), min 255 (100 + 10)⟩ :=
  ⟨⟨by norm_num [Script.brightnessOf], by norm_num [Script.brightnessOf]⟩,
   ⟨by norm_num [swOf, sxOf], by norm_num [Script.shOf, syOf],
    by norm_num [Part0.shOf, syOf]⟩,
   (claim_C5_uniform_offset (fun _ _ => ⟨100, 100, 100⟩) 10 10 0 0 10 10
       ⟨100, 100, 100⟩
       ⟨by norm_num [Script.brightnessOf], by norm_num [Script.brightnessOf]⟩).1
     (by norm_num [swOf, sxOf]) (by norm_num [Script.shOf, syOf])
     (fun _ _ _ _ => rfl),
   (claim_C5_uniform_offset (fun _ _ => ⟨100, 100, 100⟩) 10 10 0 0 10 10
       ⟨100, 100, 100⟩
       ⟨by norm_num [Script.brightnessOf], by norm_num [Script.brightnessOf]⟩).2
     (by norm_num [swOf, sxOf]) (by norm_num [Part0.shOf, syOf])
     (fun _ _ _ _ => rfl)⟩

/-- C3: for every landmark set whose pixel-space x/y values have minimum
and maximum `mnX ≤ mxX`, `mnY ≤ mxY` (characterised as a member that
bounds the list, which forces the set to be nonempty), and for every
intensity — with widthFactor and verticalOffset present only in the asset
variant — the detected-path overlay rectangle equals the stated formula:
width = faceW·(0.45+0.3·i)[·wf], height = faceH·(0.25+0.15·i),
x = centre − width/2, y = bottom − 0.4·height [+ vo·faceH].  Both
`detectedRect`s are plain functions of these inputs, hence deterministic. -/
theorem claim_C3_detected_formula (lms : List Landmark)
    (iw ih intensity widthFactor verticalOffset mnX mxX mnY mxY : ℚ)
    (hx1 : mnX ∈ lms.map (fun pt => pt.x * iw))
    (hx2 : ∀ a ∈ lms.map (fun pt => pt.x * iw), mnX ≤ a)
    (hx3 : mxX ∈ lms.map (fun pt => pt.x * iw))
    (hx4 : ∀ a ∈ lms.map (fun pt => pt.x * iw), a ≤ mxX)
    (hy1 : mnY ∈ lms.map (fun pt => pt.y * ih))
    (hy2 : ∀ a ∈ lms.map (fun pt => pt.y * ih), mnY ≤ a)
    (hy3 : mxY ∈ lms.map (fun pt => pt.y * ih))
    (hy4 : ∀ a ∈ lms.map (fun pt => pt.y * ih), a ≤ mxY) :
    Script.detectedRect lms iw ih intensity widthFactor verticalOffset =
      ⟨(mnX + mxX) / 2 - (mxX - mnX) * (0.45 + 0.3 * intensity) * widthFactor / 2,
       mxY - 0.4 * ((mxY - mnY) * (0.25 + 0.15 * intensity)) +
         verticalOffset * (mxY - mnY),
       (mxX - mnX) * (0.45 + 0.3 * intensity) * widthFactor,
       (mxY - mnY) * (0.25 + 0.15 * intensity)⟩ ∧
    Part0.detectedRect lms iw ih intensity =
      ⟨(mnX + mxX) / 2 - (mxX - mnX) * (0.45 + 0.3 * intensity) / 2,
       mxY - 0.4 * ((mxY - mnY) * (0.25 + 0.15 * intensity)),
       (mxX - mnX) * (0.45 + 0.3 * intensity),
       (mxY - mnY) * (0.25 + 0.15 * intensity)⟩ := by
  have e1 : jsMin (lms.map (fun pt => pt.x * iw)) = mnX := jsMin_eq hx1 hx2
  have e2 : jsMax (lms.map (fun pt => pt.x * iw)) = mxX := jsMax_eq hx3 hx4
  have e3 : jsMin (lms.map (fun pt => pt.y * ih)) = mnY := jsMin_eq hy1 hy2
  have e4 : jsMax (lms.map (fun pt => pt.y * ih)) = mxY := jsMax_eq hy3 hy4
  constructor <;>
    · simp only [Script.detectedRect, Part0.detectedRect, e1, e2, e3, e4,
        Rect.mk.injEq]
      exact ⟨by ring, by ring, by ring, by ring⟩

/-- Witness for C3 at the single landmark (1,1) on a 10×10 image with
intensity 1, widthFactor 2, verticalOffset 1 (degenerate bounding box at
(10,10)). -/
theorem claim_C3_detected_formula_witness :
    ((10 : ℚ) ∈ ([⟨1, 1⟩] : List Landmark).map (fun pt => pt.x * 10) ∧
     (∀ a ∈ ([⟨1, 1⟩] : List Landmark).map (fun pt => pt.x * 10), (10 : ℚ) ≤ a) ∧
     (∀ a ∈ ([⟨1, 1⟩] : List Landmark).map (fun pt => pt.x * 10), a ≤ (10 : ℚ)) ∧
     (10 : ℚ) ∈ ([⟨1, 1⟩] : List Landmark).map (fun pt => pt.y * 10) ∧
     (∀ a ∈ ([⟨1, 1⟩] : List Landmark).map (fun pt => pt.y * 10), (10 : ℚ) ≤ a) ∧
     (∀ a ∈ ([⟨1, 1⟩] : List Landmark).map (fun pt => pt.y * 10), a ≤ (10 : ℚ))) ∧
    Script.detectedRect [⟨1, 1⟩] 10 10 1 2 1 =
      ⟨(10 + 10) / 2 - (10 - 10) * (0.45 + 0.3 * 1) * 2 / 2,
       10 - 0.4 * ((10 - 10) * (0.25 + 0.15 * 1)) + 1 * (10 - 10),
       (10 - 10) * (0.45 + 0.3 * 1) * 2,
       (10 - 10) * (0.25 + 0.15 * 1)⟩ ∧
    Part0.detectedRect [⟨1, 1⟩] 10 10 1 =
      ⟨(10 + 10) / 2 - (10 - 10) * (0.45 + 0.3 * 1) / 2,
       10 - 0.4 * ((10 - 10) * (0.25 + 0.15 * 1)),
       (10 - 10) * (0.45 + 0.3 * 1),
       (10 - 10) * (0.25 + 0.15 * 1)⟩ := by
  refine ⟨⟨by norm_num, by norm_num, by norm_num, by norm_num, by norm_num,
    by norm_num⟩, ?_, ?_⟩
  · exact (claim_C3_detected_formula [⟨1, 1⟩] 10 10 1 2 1 10 10 10 10
      (by norm_num) (by norm_num) (by norm_num) (by norm_num)
      (by norm_num) (by norm_num) (by norm_num) (by norm_num)).1
  · exact (claim_C3_detected_formula [⟨1, 1⟩] 10 10 1 2 1 10 10 10 10
      (by norm_num) (by norm_num) (by norm_num) (by norm_num)
      (by norm_num) (by norm_num) (by norm_num) (by norm_num)).2

/-- C6: the end-to-end fallback scenario of the unfiltered (procedural)
variant — a 400×300 bitmap uniformly (128,128,128), intensity 0.5, with
the detector throwing ("no detector available", caught and routed to the
fallback): the fallback rectangle is exactly (x, y, w, h) =
(120, 195, 160, 60); the sampled fill colour is (138,138,138) = 128 + 10;
and the compositor call runs to completion (it is a total function),
producing exactly the six procedural-chin commands at those coordinates,
both from `drawFallback` directly and through the full click handler. -/
theorem claim_C6_gray_scenario :
    Part0.fallbackRect 400 300 0.5 = ⟨120, 195, 160, 60⟩ ∧
    Part0.computeAverageColor (fun _ _ => ⟨128, 128, 128⟩) 400 300 120 195 160 60 =
      ⟨138, 138, 138⟩ ∧
    Part0.drawBallsChin 120 195 160 60 ⟨138, 138, 138⟩ ⟨0, 0, 0⟩ =
      [MainCmd.fillEllipse 160 231 40 24 ⟨138, 138, 138⟩,
       MainCmd.strokeEllipse 160 231 40 24 ⟨0, 0, 0⟩,
       MainCmd.fillEllipse 240 231 40 24 ⟨138, 138, 138⟩,
       MainCmd.strokeEllipse 240 231 40 24 ⟨0, 0, 0⟩,
       MainCmd.strokeLine 200 216 200 243 ⟨0, 0, 0⟩,
       MainCmd.strokeArcTop 200 216 40 ⟨0, 0, 0⟩] ∧
    (Part0.generateClick (fun _ _ => ⟨128, 128, 128⟩) 0.5 DetectOutcome.threw
        ⟨some (400, 300), true, true, []⟩).cmds =
      [MainCmd.clear, MainCmd.drawUploaded] ++
        Part0.drawBallsChin 120 195 160 60 ⟨138, 138, 138⟩ ⟨0, 0, 0⟩ := by
  have hrect : Part0.fallbackRect ((400 : ℕ) : ℚ) ((300 : ℕ) : ℚ) 0.5 =
      ⟨120, 195, 160, 60⟩ := by
    simp only [Part0.fallbackRect, Rect.mk.injEq]
    norm_num
  have havg : Part0.computeAverageColor (fun _ _ => ⟨128, 128, 128⟩)
      400 300 120 195 160 60 = ⟨138, 138, 138⟩ := by
    have h := Part0.computeAverageColor_uniform_p0 (fun _ _ => ⟨128, 128, 128⟩)
        400 300 120 195 160 60 ⟨128, 128, 128⟩
        (by norm_num [swOf, sxOf]) (by norm_num [Part0.shOf, syOf])
        (fun _ _ _ _ => rfl)
    rw [h]
    decide
  have hdf : ∀ cmds : List MainCmd,
      Part0.drawFallback (fun _ _ => ⟨128, 128, 128⟩) 400 300 0.5 cmds =
        cmds ++ Part0.drawBallsChin 120 195 160 60 ⟨138, 138, 138⟩ ⟨0, 0, 0⟩ := by
    intro cmds
    simp only [Part0.drawFallback, hrect]
    rw [havg]
  refine ⟨by simpa using hrect, havg, ?_, ?_⟩
  · simp only [Part0.drawBallsChin, List.cons.injEq, and_true]
    norm_num
  · simp only [Part0.generateClick]
    exact hdf [MainCmd.clear, MainCmd.drawUploaded]
